import Mathlib

/-!
Shallow embedding of the appointment-lifecycle routes of the
DoctorAppointmentBackend repository (routes/doctor.js: the doctor router and
the admin router, plus the patient router in routes/userRoutes.js).

Modelling conventions:
* Mongo ObjectIds are `String`s compared for equality (`toString()` equality
  in the source).
* `date` values are abstracted to `Nat` time points: the source compares dates
  for equality in the slot-conflict queries and with `$lt` / `$gte` against
  `new Date()` in the sweep and dashboard queries.
* A request-body field that may be absent is an `Option`; JavaScript
  truthiness of a string field (`!x` is true for `undefined`, `null` and `""`)
  is `strFalsy`; `x || d` on a string field is `jsOr x d`.
* Each handler is a pure function from the acting identity (the verified
  `(req.userId, req.userRole)` pair installed by the auth middleware), the
  request body and the store state to a result plus the new store state.
  Response formatting/population and sort order of returned lists are
  presentation only and are not modelled beyond the fields the results carry.
* `new Appointment(...)` generates a fresh `_id`; the generated id is passed
  to the handler as an explicit `newId` argument.
-/

namespace DoctorApp

/-- An Appointment document (models/Appointment): the fields read and written
by the routes. -/
structure Appointment where
  id : String
  user_id : String
  doctor_id : String
  date : Nat
  time : String
  symptoms : String
  notes : String
  status : String
deriving Repr, DecidableEq

/-- A Doctor document (models/Doctor): the fields the lifecycle routes use. -/
structure Doctor where
  id : String
  userId : String
  fees : Nat
deriving Repr, DecidableEq

/-- A User document (models/User): the fields the lifecycle routes use. -/
structure User where
  id : String
  role : String
deriving Repr, DecidableEq

/-- The document store: the three collections the appointment lifecycle
touches. -/
structure State where
  users : List User
  doctors : List Doctor
  appointments : List Appointment
deriving Repr, DecidableEq

/-- JavaScript falsiness of an optional string field: `!x` is true when the
field is absent or the empty string. -/
def strFalsy : Option String → Bool
  | none => true
  | some s => s == ""

/-- JavaScript `x || d` on an optional string field: the default is taken when
the field is absent or the empty string. -/
def jsOr (x : Option String) (d : String) : String :=
  match x with
  | none => d
  | some s => if s == "" then d else s

/-- Body of POST /book-appointment:
`{ doctor_id, date, time, symptoms, notes }`. -/
structure BookBody where
  doctor_id : Option String
  date : Option Nat
  time : Option String
  symptoms : Option String
  notes : Option String
deriving Repr, DecidableEq

/-- Result of a booking-style endpoint: an HTTP error (status code, message)
or 201 Created with the created appointment. -/
inductive BookResult where
  | error (code : Nat) (message : String)
  | created (appt : Appointment)
deriving Repr, DecidableEq

/-- The slot-conflict query of POST /book-appointment (doctor.js:308-313):
`Appointment.findOne({doctor_id, date, time, status: {$in: ["Pending",
"Upcoming"]}})` is truthy. -/
def bookConflict (did : String) (dt : Nat) (tm : String) (st : State) : Bool :=
  st.appointments.any fun a =>
    a.doctor_id == did && a.date == dt && a.time == tm &&
      (a.status == "Pending" || a.status == "Upcoming")

/-- POST /book-appointment (doctor.js:280-348). -/
def bookAppointment (userId userRole : String) (b : BookBody) (newId : String)
    (st : State) : BookResult × State :=
  if userRole ≠ "Patient" then
    (.error 403 "Only patients can book appointments", st)
  else if strFalsy b.doctor_id || b.date.isNone || strFalsy b.time then
    (.error 400 "Doctor ID, date, and time are required", st)
  else
    let did := b.doctor_id.getD ""
    let dt := b.date.getD 0
    let tm := b.time.getD ""
    if (st.doctors.find? fun d => d.id == did).isNone then
      (.error 404 "Doctor not found", st)
    else if userRole == "Doctor" &&
        (match st.doctors.find? fun d => d.userId == userId with
         | some ud => ud.id == did
         | none => false) then
      -- doctor.js:300-305: unreachable after the role gate above, kept as in
      -- the source (note it answers 400, not 403)
      (.error 400 "Doctors cannot book appointments with themselves", st)
    else if bookConflict did dt tm st then
      (.error 400 "This time slot is already booked", st)
    else
      let appt : Appointment :=
        { id := newId, user_id := userId, doctor_id := did, date := dt,
          time := tm, symptoms := jsOr b.symptoms "", notes := jsOr b.notes "",
          status := "Pending" }
      (.created appt, { st with appointments := st.appointments ++ [appt] })

/-- Body of POST /admin/appointments:
`{ user_id, doctor_id, date, time, symptoms, notes, status }`. -/
structure AdminBookBody where
  user_id : Option String
  doctor_id : Option String
  date : Option Nat
  time : Option String
  symptoms : Option String
  notes : Option String
  status : Option String
deriving Repr, DecidableEq

/-- The slot-conflict query of POST /admin/appointments (doctor.js:742-747):
status filter `$in: ["Pending", "Confirmed"]`. -/
def adminConflict (did : String) (dt : Nat) (tm : String) (st : State) : Bool :=
  st.appointments.any fun a =>
    a.doctor_id == did && a.date == dt && a.time == tm &&
      (a.status == "Pending" || a.status == "Confirmed")

/-- POST /admin/appointments (doctor.js:715-804). -/
def adminCreateAppointment (userRole : String) (b : AdminBookBody)
    (newId : String) (st : State) : BookResult × State :=
  if userRole ≠ "Admin" then
    (.error 403 "Only admins can access this endpoint", st)
  else if strFalsy b.user_id || strFalsy b.doctor_id || b.date.isNone ||
      strFalsy b.time then
    (.error 400 "User ID, Doctor ID, date, and time are required", st)
  else
    let uid := b.user_id.getD ""
    let did := b.doctor_id.getD ""
    let dt := b.date.getD 0
    let tm := b.time.getD ""
    if (st.users.find? fun u => u.id == uid).isNone then
      (.error 404 "User not found", st)
    else if (st.doctors.find? fun d => d.id == did).isNone then
      (.error 404 "Doctor not found", st)
    else if adminConflict did dt tm st then
      (.error 400 "This time slot is already booked", st)
    else
      let appt : Appointment :=
        { id := newId, user_id := uid, doctor_id := did, date := dt, time := tm,
          symptoms := jsOr b.symptoms "", notes := jsOr b.notes "",
          status := jsOr b.status "Confirmed" }
      (.created appt, { st with appointments := st.appointments ++ [appt] })

/-- The admin status allow-list (doctor.js:646). -/
def validStatuses : List String :=
  ["Pending", "Confirmed", "Completed", "Cancelled", "Rejected", "Expired"]

/-- Result of PUT /admin/appointments/:id/status: an HTTP error or 200 with
the updated appointment. -/
inductive UpdateResult where
  | error (code : Nat) (message : String)
  | ok (appt : Appointment)
deriving Repr, DecidableEq

/-- PUT /admin/appointments/:id/status (doctor.js:635-690):
validate the status against the allow-list, then `findByIdAndUpdate`. -/
def updateAppointmentStatus (userRole : String) (id status : String)
    (st : State) : UpdateResult × State :=
  if userRole ≠ "Admin" then
    (.error 403 "Only admins can access this endpoint", st)
  else if !(validStatuses.contains status) then
    (.error 400
      "Invalid status. Valid statuses are: Pending, Confirmed, Completed, Cancelled, Rejected, Expired",
      st)
  else
    match st.appointments.find? fun a => a.id == id with
    | none => (.error 404 "Appointment not found", st)
    | some a =>
      (.ok { a with status := status },
       { st with appointments := st.appointments.map fun x =>
          if x.id == id then { x with status := status } else x })

/-- The terminal statuses excluded from the expiry sweep
(doctor.js:573 and doctor.js:1165). -/
def terminalStatuses : List String := ["Completed", "Cancelled", "Expired"]

/-- The sweep's match condition (doctor.js:1163-1166):
`date: {$lt: currentDate}, status: {$nin: ["Completed","Cancelled","Expired"]}`. -/
def expiredQuery (now : Nat) (a : Appointment) : Bool :=
  decide (a.date < now) && !(terminalStatuses.contains a.status)

/-- Effect of the sweep's `updateMany` on one document: set
`status := "Expired"` when the document matches. -/
def sweepDoc (now : Nat) (a : Appointment) : Appointment :=
  if expiredQuery now a then { a with status := "Expired" } else a

/-- Store state after the sweep's bulk update. -/
def sweepState (now : Nat) (st : State) : State :=
  { st with appointments := st.appointments.map (sweepDoc now) }

/-- `modifiedCount` of the sweep's `updateMany`: every matched document has a
non-`Expired` status, so every matched document is modified. -/
def sweepCount (now : Nat) (st : State) : Nat :=
  (st.appointments.filter (expiredQuery now)).length

/-- Result of POST /admin/mark-expired: an HTTP error or 200 with the
modified count. -/
inductive CountResult where
  | error (code : Nat) (message : String)
  | ok (modifiedCount : Nat)
deriving Repr, DecidableEq

/-- POST /admin/mark-expired (doctor.js:1154-1178). -/
def markExpired (userRole : String) (now : Nat) (st : State) :
    CountResult × State :=
  if userRole ≠ "Admin" then
    (.error 403 "Only admins can access this endpoint", st)
  else (.ok (sweepCount now st), sweepState now st)

/-- Result of GET /admin/appointments: an HTTP error or 200 with the list of
appointments read after the sweep. -/
inductive ListResult where
  | error (code : Nat) (message : String)
  | ok (appointments : List Appointment)
deriving Repr, DecidableEq

/-- GET /admin/appointments (doctor.js:561-632): sweep first
(doctor.js:568-576), then read all appointments. -/
def adminListAppointments (userRole : String) (now : Nat) (st : State) :
    ListResult × State :=
  if userRole ≠ "Admin" then
    (.error 403 "Only admins can access this endpoint", st)
  else
    let st' := sweepState now st
    (.ok st'.appointments, st')

/-- The completed-appointment count of the doctor dashboard
(doctor.js:152-155): status `$in: ["Completed", "Done", "Approved"]`. -/
def completedCount (doctorId : String) (st : State) : Nat :=
  (st.appointments.filter fun a =>
    a.doctor_id == doctorId &&
      (["Completed", "Done", "Approved"] : List String).contains a.status).length

/-- The earnings figure of GET /doctor/dashboard (doctor.js:113,152-156):
resolve the doctor profile by `userId`, then
`earnings = completedCount * (doctor.fees || 0)` (on `Nat` fees, `|| 0` is the
identity); `none` when no doctor profile exists (404 path). -/
def doctorDashboardEarnings (userId : String) (st : State) : Option Nat :=
  (st.doctors.find? fun d => d.userId == userId).map fun d =>
    completedCount d.id st * d.fees

/-- The fees branch of PUT /doctor/profile (doctor.js:64,70,73): `findOne` by
`userId` and save the updated fee on that document. -/
def updateFirstFees : List Doctor → String → Nat → List Doctor
  | [], _, _ => []
  | d :: ds, u, f =>
    if d.userId == u then { d with fees := f } :: ds
    else d :: updateFirstFees ds u f

/-- PUT /doctor/profile restricted to the `fees` field: no change when the
doctor profile is absent (404 path). -/
def updateDoctorFees (userId : String) (f : Nat) (st : State) : State :=
  if (st.doctors.find? fun d => d.userId == userId).isNone then st
  else { st with doctors := updateFirstFees st.doctors userId f }

/-- Result of DELETE /admin/users/:id. -/
inductive DeleteResult where
  | error (code : Nat) (message : String)
  | ok
deriving Repr, DecidableEq

/-- `findByIdAndDelete` on the users collection: remove the document with the
given id. -/
def removeFirstUser : List User → String → List User
  | [], _ => []
  | u :: us, i => if u.id == i then us else u :: removeFirstUser us i

/-- DELETE /admin/users/:id (doctor.js:974-1000): check the user exists,
`Appointment.deleteMany({user_id: id})`, then `User.findByIdAndDelete(id)`. -/
def deleteUser (userRole : String) (id : String) (st : State) :
    DeleteResult × State :=
  if userRole ≠ "Admin" then
    (.error 403 "Only admins can access this endpoint", st)
  else if (st.users.find? fun u => u.id == id).isNone then
    (.error 404 "User not found", st)
  else
    (.ok,
     { st with
        users := removeFirstUser st.users id,
        appointments := st.appointments.filter fun a => !(a.user_id == id) })

/-! ## Theorems -/

/-- The slot key of a booking: same doctor, date and time. -/
def slotMatch (did : String) (dt : Nat) (tm : String) (a : Appointment) : Bool :=
  a.doctor_id == did && a.date == dt && a.time == tm

/-- A valid patient booking on a conflict-free slot creates the Pending
appointment and appends it to the store. -/
theorem bookAppointment_success (u did tm newId : String) (dt : Nat)
    (sy no : Option String) (st : State) (d0 : Doctor)
    (hdid : (did == "") = false) (htm : (tm == "") = false)
    (hdoc : st.doctors.find? (fun d => d.id == did) = some d0)
    (hconf : bookConflict did dt tm st = false) :
    bookAppointment u "Patient" ⟨some did, some dt, some tm, sy, no⟩ newId st =
      (.created ⟨newId, u, did, dt, tm, jsOr sy "", jsOr no "", "Pending"⟩,
       { st with appointments := st.appointments ++
          [⟨newId, u, did, dt, tm, jsOr sy "", jsOr no "", "Pending"⟩] }) := by
  simp [bookAppointment, strFalsy, hdid, htm, hdoc, hconf]

/-- A valid patient booking on a conflicting slot fails with 400 and leaves
the store unchanged. -/
theorem bookAppointment_conflict (u did tm newId : String) (dt : Nat)
    (sy no : Option String) (st : State) (d0 : Doctor)
    (hdid : (did == "") = false) (htm : (tm == "") = false)
    (hdoc : st.doctors.find? (fun d => d.id == did) = some d0)
    (hconf : bookConflict did dt tm st = true) :
    bookAppointment u "Patient" ⟨some did, some dt, some tm, sy, no⟩ newId st =
      (.error 400 "This time slot is already booked", st) := by
  simp [bookAppointment, strFalsy, hdid, htm, hdoc, hconf]

/-- If no stored appointment matches the slot at all, the patient-path
conflict query is false. -/
theorem bookConflict_of_free (did : String) (dt : Nat) (tm : String)
    (st : State)
    (hfree : ∀ a ∈ st.appointments, slotMatch did dt tm a = false) :
    bookConflict did dt tm st = false := by
  rw [bookConflict, List.any_eq_false]
  intro a ha
  have h := hfree a ha
  simp only [slotMatch] at h
  simp [h]

/-- C1: starting from a store with no appointment for the slot (D, T, S) and
an existing doctor D, a first patient booking for (D, T, S) succeeds and
creates exactly one Pending appointment for the slot, and a second sequential
patient booking for the same slot fails with 400 "This time slot is already
booked" and leaves the store unchanged. -/
theorem patient_double_booking (u₁ u₂ did tm id₁ id₂ : String) (dt : Nat)
    (sy₁ no₁ sy₂ no₂ : Option String) (st : State) (d0 : Doctor)
    (hdid : (did == "") = false) (htm : (tm == "") = false)
    (hdoc : st.doctors.find? (fun d => d.id == did) = some d0)
    (hfree : ∀ a ∈ st.appointments, slotMatch did dt tm a = false) :
    ∃ appt : Appointment,
      bookAppointment u₁ "Patient" ⟨some did, some dt, some tm, sy₁, no₁⟩ id₁ st =
        (.created appt, { st with appointments := st.appointments ++ [appt] }) ∧
      appt.status = "Pending" ∧
      (st.appointments ++ [appt]).filter (slotMatch did dt tm) = [appt] ∧
      bookAppointment u₂ "Patient" ⟨some did, some dt, some tm, sy₂, no₂⟩ id₂
          { st with appointments := st.appointments ++ [appt] } =
        (.error 400 "This time slot is already booked",
         { st with appointments := st.appointments ++ [appt] }) := by
  have hconf : bookConflict did dt tm st = false := bookConflict_of_free _ _ _ _ hfree
  refine ⟨⟨id₁, u₁, did, dt, tm, jsOr sy₁ "", jsOr no₁ "", "Pending"⟩,
    bookAppointment_success u₁ did tm id₁ dt sy₁ no₁ st d0 hdid htm hdoc hconf,
    rfl, ?_, ?_⟩
  · rw [List.filter_append]
    have h1 : st.appointments.filter (slotMatch did dt tm) = [] := by
      rw [List.filter_eq_nil_iff]; intro a ha; simp [hfree a ha]
    rw [h1]
    simp [slotMatch]
  · have hconf2 : bookConflict did dt tm
        { st with appointments := st.appointments ++
          [⟨id₁, u₁, did, dt, tm, jsOr sy₁ "", jsOr no₁ "", "Pending"⟩] } = true := by
      simp [bookConflict]
    exact bookAppointment_conflict u₂ did tm id₂ dt sy₂ no₂ _ d0 hdid htm hdoc hconf2

/-- Witness for C1 at a concrete store: one doctor, empty appointment list. -/
theorem patient_double_booking_witness :
    ∃ appt : Appointment,
      bookAppointment "u1" "Patient" ⟨some "d1", some 5, some "10:00 AM", none, none⟩ "a1"
          ⟨[], [⟨"d1", "du", 500⟩], []⟩ =
        (.created appt,
         { users := [], doctors := [⟨"d1", "du", 500⟩],
           appointments := [] ++ [appt] }) ∧
      appt.status = "Pending" ∧
      ([] ++ [appt]).filter (slotMatch "d1" 5 "10:00 AM") = [appt] ∧
      bookAppointment "u2" "Patient" ⟨some "d1", some 5, some "10:00 AM", none, none⟩ "a2"
          { users := [], doctors := [⟨"d1", "du", 500⟩],
            appointments := [] ++ [appt] } =
        (.error 400 "This time slot is already booked",
         { users := [], doctors := [⟨"d1", "du", 500⟩],
           appointments := [] ++ [appt] }) :=
  patient_double_booking "u1" "u2" "d1" "10:00 AM" "a1" "a2" 5 none none none none
    ⟨[], [⟨"d1", "du", 500⟩], []⟩ ⟨"d1", "du", 500⟩
    (by decide) (by decide) (by decide) (by simp)

/-- C2 counterexample: with a Confirmed appointment occupying the slot
(d1, 5, "10:00 AM"), a patient booking for the same slot does not fail with
the conflict error — it succeeds and creates a second appointment for the
slot, because the patient-path conflict filter is
status in {Pending, Upcoming}, not {Pending, Confirmed}. -/
theorem confirmed_not_blocking_cx :
    (bookAppointment "u2" "Patient" ⟨some "d1", some 5, some "10:00 AM", none, none⟩ "a2"
        ⟨[], [⟨"d1", "du", 500⟩],
         [⟨"a1", "u9", "d1", 5, "10:00 AM", "", "", "Confirmed"⟩]⟩).1 =
      .created ⟨"a2", "u2", "d1", 5, "10:00 AM", "", "", "Pending"⟩ ∧
    (bookAppointment "u2" "Patient" ⟨some "d1", some 5, some "10:00 AM", none, none⟩ "a2"
        ⟨[], [⟨"d1", "du", 500⟩],
         [⟨"a1", "u9", "d1", 5, "10:00 AM", "", "", "Confirmed"⟩]⟩).2.appointments.length = 2 := by
  constructor <;> decide

/-- C2 (amended): the active-hold set of the patient booking path is
{Pending, Upcoming}: a valid patient booking fails with the conflict error
exactly when some stored appointment matches (doctorRef, date, time) with
status Pending or Upcoming; in particular an existing Confirmed appointment
does not block the booking. -/
theorem patient_conflict_set (u did tm newId : String) (dt : Nat)
    (sy no : Option String) (st : State) (d0 : Doctor)
    (hdid : (did == "") = false) (htm : (tm == "") = false)
    (hdoc : st.doctors.find? (fun d => d.id == did) = some d0) :
    (bookAppointment u "Patient" ⟨some did, some dt, some tm, sy, no⟩ newId st).1 =
        .error 400 "This time slot is already booked"
      ↔ ∃ a ∈ st.appointments, slotMatch did dt tm a = true ∧
          (a.status = "Pending" ∨ a.status = "Upcoming") := by
  cases h : bookConflict did dt tm st with
  | false =>
    rw [bookAppointment_success u did tm newId dt sy no st d0 hdid htm hdoc h]
    simp only [reduceCtorEq, false_iff]
    rw [bookConflict, List.any_eq_false] at h
    rintro ⟨a, ha, hm, hs⟩
    have hp := h a ha
    simp only [slotMatch, Bool.and_eq_true, beq_iff_eq] at hm
    simp [hm.1.1, hm.1.2, hm.2, hs] at hp
  | true =>
    rw [bookAppointment_conflict u did tm newId dt sy no st d0 hdid htm hdoc h]
    simp only [true_iff]
    rw [bookConflict, List.any_eq_true] at h
    obtain ⟨a, ha, hp⟩ := h
    simp only [Bool.and_eq_true, Bool.or_eq_true, beq_iff_eq] at hp
    exact ⟨a, ha, by simp [slotMatch, hp.1.1.1, hp.1.1.2, hp.1.2], hp.2⟩

/-- Witness for the amended C2: a Pending appointment holds the slot, so the
booking errors, and the matching appointment exists. -/
theorem patient_conflict_set_witness :
    (bookAppointment "u2" "Patient" ⟨some "d1", some 5, some "10:00 AM", none, none⟩ "a2"
        ⟨[], [⟨"d1", "du", 500⟩],
         [⟨"a1", "u9", "d1", 5, "10:00 AM", "", "", "Pending"⟩]⟩).1 =
        .error 400 "This time slot is already booked"
      ↔ ∃ a ∈ [(⟨"a1", "u9", "d1", 5, "10:00 AM", "", "", "Pending"⟩ : Appointment)],
          slotMatch "d1" 5 "10:00 AM" a = true ∧
          (a.status = "Pending" ∨ a.status = "Upcoming") :=
  patient_conflict_set "u2" "d1" "10:00 AM" "a2" 5 none none
    ⟨[], [⟨"d1", "du", 500⟩],
     [⟨"a1", "u9", "d1", 5, "10:00 AM", "", "", "Pending"⟩]⟩
    ⟨"d1", "du", 500⟩ (by decide) (by decide) (by decide)

/-- C8 counterexample: an identity (u1) that owns the doctor profile d1
(userId = u1) and whose acting role is Patient books doctor d1 for itself:
the request succeeds (201 Created) instead of failing with 403, because the
self-booking branch requires role Doctor, which the earlier role gate has
already excluded. -/
theorem self_booking_guard_cx :
    (bookAppointment "u1" "Patient" ⟨some "d1", some 5, some "10:00 AM", none, none⟩ "a1"
        ⟨[⟨"u1", "Patient"⟩], [⟨"d1", "u1", 500⟩], []⟩).1 =
      .created ⟨"a1", "u1", "d1", 5, "10:00 AM", "", "", "Pending"⟩ ∧
    (bookAppointment "u1" "Patient" ⟨some "d1", some 5, some "10:00 AM", none, none⟩ "a1"
        ⟨[⟨"u1", "Patient"⟩], [⟨"d1", "u1", 500⟩], []⟩).2.appointments.length = 1 := by
  constructor <;> decide

/-- C8 (amended): every booking request whose acting role is Doctor — in
particular a doctor booking their own profile — fails with 403
"Only patients can book appointments" at the role gate, regardless of the
request body and of slot availability, and the store is unchanged. -/
theorem doctor_role_booking_forbidden (u newId : String) (b : BookBody)
    (st : State) :
    bookAppointment u "Doctor" b newId st =
      (.error 403 "Only patients can book appointments", st) := by
  simp [bookAppointment]

/-- None of the six allow-listed statuses is the empty string. -/
theorem validStatuses_not_empty : ∀ s ∈ validStatuses, (s == "") = false := by
  intro s hs
  fin_cases hs <;> decide

/-- A valid admin booking on a conflict-free slot creates the appointment
with status `status || "Confirmed"` and appends it to the store. -/
theorem adminCreate_success (uid did tm newId : String) (dt : Nat)
    (sy no stt : Option String) (st : State) (u0 : User) (d0 : Doctor)
    (huid : (uid == "") = false) (hdid : (did == "") = false)
    (htm : (tm == "") = false)
    (hu : st.users.find? (fun x => x.id == uid) = some u0)
    (hd : st.doctors.find? (fun d => d.id == did) = some d0)
    (hconf : adminConflict did dt tm st = false) :
    adminCreateAppointment "Admin" ⟨some uid, some did, some dt, some tm, sy, no, stt⟩ newId st =
      (.created ⟨newId, uid, did, dt, tm, jsOr sy "", jsOr no "", jsOr stt "Confirmed"⟩,
       { st with appointments := st.appointments ++
          [⟨newId, uid, did, dt, tm, jsOr sy "", jsOr no "", jsOr stt "Confirmed"⟩] }) := by
  simp [adminCreateAppointment, strFalsy, huid, hdid, htm, hu, hd, hconf]

/-- A valid admin booking on a conflicting slot fails with 400 and leaves the
store unchanged. -/
theorem adminCreate_conflict (uid did tm newId : String) (dt : Nat)
    (sy no stt : Option String) (st : State) (u0 : User) (d0 : Doctor)
    (huid : (uid == "") = false) (hdid : (did == "") = false)
    (htm : (tm == "") = false)
    (hu : st.users.find? (fun x => x.id == uid) = some u0)
    (hd : st.doctors.find? (fun d => d.id == did) = some d0)
    (hconf : adminConflict did dt tm st = true) :
    adminCreateAppointment "Admin" ⟨some uid, some did, some dt, some tm, sy, no, stt⟩ newId st =
      (.error 400 "This time slot is already booked", st) := by
  simp [adminCreateAppointment, strFalsy, huid, hdid, htm, hu, hd, hconf]

/-- C3: for a valid admin booking request, the conflict check blocks creation
exactly when some stored appointment matches (doctorRef, date, time) with
status in {Pending, Confirmed}; on a free slot the appointment is created
with status Confirmed when the request omits `status`, and with exactly the
supplied status when any of the six enumerated values is supplied, with no
transition check. -/
theorem admin_create_contract (uid did tm newId : String) (dt : Nat)
    (sy no stt : Option String) (st : State) (u0 : User) (d0 : Doctor)
    (huid : (uid == "") = false) (hdid : (did == "") = false)
    (htm : (tm == "") = false)
    (hu : st.users.find? (fun x => x.id == uid) = some u0)
    (hd : st.doctors.find? (fun d => d.id == did) = some d0) :
    ((adminCreateAppointment "Admin" ⟨some uid, some did, some dt, some tm, sy, no, stt⟩ newId st).1 =
        .error 400 "This time slot is already booked"
      ↔ ∃ a ∈ st.appointments, slotMatch did dt tm a = true ∧
          (a.status = "Pending" ∨ a.status = "Confirmed")) ∧
    (adminConflict did dt tm st = false →
      ∃ appt : Appointment,
        adminCreateAppointment "Admin" ⟨some uid, some did, some dt, some tm, sy, no, stt⟩ newId st =
          (.created appt, { st with appointments := st.appointments ++ [appt] }) ∧
        (stt = none → appt.status = "Confirmed") ∧
        (∀ s ∈ validStatuses, stt = some s → appt.status = s)) := by
  constructor
  · cases h : adminConflict did dt tm st with
    | false =>
      rw [adminCreate_success uid did tm newId dt sy no stt st u0 d0 huid hdid htm hu hd h]
      simp only [reduceCtorEq, false_iff]
      rw [adminConflict, List.any_eq_false] at h
      rintro ⟨a, ha, hm, hs⟩
      have hp := h a ha
      simp only [slotMatch, Bool.and_eq_true, beq_iff_eq] at hm
      simp [hm.1.1, hm.1.2, hm.2, hs] at hp
    | true =>
      rw [adminCreate_conflict uid did tm newId dt sy no stt st u0 d0 huid hdid htm hu hd h]
      simp only [true_iff]
      rw [adminConflict, List.any_eq_true] at h
      obtain ⟨a, ha, hp⟩ := h
      simp only [Bool.and_eq_true, Bool.or_eq_true, beq_iff_eq] at hp
      exact ⟨a, ha, by simp [slotMatch, hp.1.1.1, hp.1.1.2, hp.1.2], hp.2⟩
  · intro h
    refine ⟨⟨newId, uid, did, dt, tm, jsOr sy "", jsOr no "", jsOr stt "Confirmed"⟩,
      adminCreate_success uid did tm newId dt sy no stt st u0 d0 huid hdid htm hu hd h,
      fun hn => by simp [hn, jsOr],
      fun s hs hsome => by simp [hsome, jsOr, validStatuses_not_empty s hs]⟩

/-- Witness for C3 at a concrete store: empty appointment list, status
supplied as Cancelled. -/
theorem admin_create_contract_witness :
    ((adminCreateAppointment "Admin"
        ⟨some "u1", some "d1", some 5, some "10:00 AM", none, none, some "Cancelled"⟩ "a1"
        ⟨[⟨"u1", "Patient"⟩], [⟨"d1", "du", 500⟩], []⟩).1 =
        .error 400 "This time slot is already booked"
      ↔ ∃ a ∈ ([] : List Appointment), slotMatch "d1" 5 "10:00 AM" a = true ∧
          (a.status = "Pending" ∨ a.status = "Confirmed")) ∧
    (adminConflict "d1" 5 "10:00 AM" ⟨[⟨"u1", "Patient"⟩], [⟨"d1", "du", 500⟩], []⟩ = false →
      ∃ appt : Appointment,
        adminCreateAppointment "Admin"
            ⟨some "u1", some "d1", some 5, some "10:00 AM", none, none, some "Cancelled"⟩ "a1"
            ⟨[⟨"u1", "Patient"⟩], [⟨"d1", "du", 500⟩], []⟩ =
          (.created appt,
           { users := [⟨"u1", "Patient"⟩], doctors := [⟨"d1", "du", 500⟩],
             appointments := [] ++ [appt] }) ∧
        (some "Cancelled" = none → appt.status = "Confirmed") ∧
        (∀ s ∈ validStatuses, some "Cancelled" = some s → appt.status = s)) :=
  admin_create_contract "u1" "d1" "10:00 AM" "a1" 5 none none (some "Cancelled")
    ⟨[⟨"u1", "Patient"⟩], [⟨"d1", "du", 500⟩], []⟩ ⟨"u1", "Patient"⟩ ⟨"d1", "du", 500⟩
    (by decide) (by decide) (by decide) (by decide) (by decide)

/-- A document the sweep's query does not match is left as is. -/
theorem sweepDoc_of_false (now : Nat) (a : Appointment)
    (h : expiredQuery now a = false) : sweepDoc now a = a := by
  simp [sweepDoc, h]

/-- After one sweep, no document matches the sweep's query any more. -/
theorem expiredQuery_sweepDoc (now : Nat) (a : Appointment) :
    expiredQuery now (sweepDoc now a) = false := by
  cases h : expiredQuery now a with
  | true =>
    have hs : sweepDoc now a = { a with status := "Expired" } := by simp [sweepDoc, h]
    rw [hs]
    simp [expiredQuery, terminalStatuses]
  | false => rw [sweepDoc_of_false now a h]; exact h

/-- C4: the sweep rewrites every stored appointment pointwise; a document
with date before now and status Pending comes out with status Expired, and a
document whose status is Completed, Cancelled or Expired is untouched
(whatever its date). -/
theorem sweep_marks_expired (now : Nat) (st : State) :
    (sweepState now st).appointments = st.appointments.map (sweepDoc now) ∧
    ∀ a : Appointment,
      (a.date < now → a.status = "Pending" →
        sweepDoc now a = { a with status := "Expired" }) ∧
      (a.status ∈ terminalStatuses → sweepDoc now a = a) := by
  refine ⟨rfl, fun a => ⟨fun hlt hp => ?_, fun ht => ?_⟩⟩
  · simp [sweepDoc, expiredQuery, hlt, hp, terminalStatuses]
  · apply sweepDoc_of_false
    simp [expiredQuery, ht]

/-- Witness for C4: a past Pending appointment becomes Expired; a past
Completed appointment is untouched. -/
theorem sweep_marks_expired_witness :
    sweepDoc 10 ⟨"a1", "u", "d", 5, "t", "", "", "Pending"⟩ =
      ⟨"a1", "u", "d", 5, "t", "", "", "Expired"⟩ ∧
    sweepDoc 10 ⟨"a2", "u", "d", 5, "t", "", "", "Completed"⟩ =
      ⟨"a2", "u", "d", 5, "t", "", "", "Completed"⟩ :=
  ⟨((sweep_marks_expired 10 ⟨[], [], []⟩).2
      ⟨"a1", "u", "d", 5, "t", "", "", "Pending"⟩).1 (by decide) rfl,
   ((sweep_marks_expired 10 ⟨[], [], []⟩).2
      ⟨"a2", "u", "d", 5, "t", "", "", "Completed"⟩).2 (by decide)⟩

/-- C5: the admin list operation sweeps first and then reads the swept store,
so in the returned list (and in the post-operation store) every appointment
dated before now has a status in {Completed, Cancelled, Expired}. -/
theorem admin_list_sweeps_before_read (now : Nat) (st : State) :
    adminListAppointments "Admin" now st =
      (.ok (sweepState now st).appointments, sweepState now st) ∧
    ∀ a ∈ (sweepState now st).appointments, a.date < now →
      a.status ∈ terminalStatuses := by
  refine ⟨by simp [adminListAppointments], fun a ha hlt => ?_⟩
  simp only [sweepState, List.mem_map] at ha
  obtain ⟨b, hb, rfl⟩ := ha
  cases h : expiredQuery now b with
  | true => simp [sweepDoc, h, terminalStatuses]
  | false =>
    rw [sweepDoc_of_false now b h] at hlt ⊢
    simp [expiredQuery, hlt] at h
    simpa [terminalStatuses] using h

/-- Witness for C5: a store holding one stale Pending appointment; after the
implicit sweep the returned record is Expired, hence terminal. -/
theorem admin_list_sweeps_before_read_witness :
    adminListAppointments "Admin" 10 ⟨[], [], [⟨"a1", "u", "d", 5, "t", "", "", "Pending"⟩]⟩ =
      (.ok (sweepState 10 ⟨[], [], [⟨"a1", "u", "d", 5, "t", "", "", "Pending"⟩]⟩).appointments,
       sweepState 10 ⟨[], [], [⟨"a1", "u", "d", 5, "t", "", "", "Pending"⟩]⟩) ∧
    (⟨"a1", "u", "d", 5, "t", "", "", "Expired"⟩ : Appointment).status ∈ terminalStatuses :=
  ⟨(admin_list_sweeps_before_read 10 ⟨[], [], [⟨"a1", "u", "d", 5, "t", "", "", "Pending"⟩]⟩).1,
   (admin_list_sweeps_before_read 10 ⟨[], [], [⟨"a1", "u", "d", 5, "t", "", "", "Pending"⟩]⟩).2
     ⟨"a1", "u", "d", 5, "t", "", "", "Expired"⟩ (by decide) (by decide)⟩

/-- C6: the explicit sweep endpoint is idempotent — run twice in succession
with no intervening writes, the second run leaves the store exactly as the
first left it and reports zero modified records. -/
theorem sweep_idempotent (now : Nat) (st : State) :
    (markExpired "Admin" now (markExpired "Admin" now st).2).2 =
      (markExpired "Admin" now st).2 ∧
    (markExpired "Admin" now (markExpired "Admin" now st).2).1 =
      CountResult.ok 0 := by
  have hmap : sweepState now (sweepState now st) = sweepState now st := by
    simp only [sweepState, List.map_map]
    congr 1
    apply List.map_congr_left
    intro a _
    exact sweepDoc_of_false now (sweepDoc now a) (expiredQuery_sweepDoc now a)
  have hcnt : sweepCount now (sweepState now st) = 0 := by
    rw [sweepCount, List.length_eq_zero, List.filter_eq_nil_iff]
    intro a ha
    simp only [sweepState, List.mem_map] at ha
    obtain ⟨b, _, rfl⟩ := ha
    simp [expiredQuery_sweepDoc now b]
  simp [markExpired, hmap, hcnt]

/-- C7: the admin status update rejects any value outside the six-status
allow-list with 400 and leaves the store unchanged; for an allow-listed value
it updates the target appointment unconditionally — whatever its current
status — and answers 404 without touching the store when the target does not
exist. -/
theorem admin_status_update_contract (id s : String) (st : State) :
    (validStatuses.contains s = false →
      updateAppointmentStatus "Admin" id s st =
        (.error 400
          "Invalid status. Valid statuses are: Pending, Confirmed, Completed, Cancelled, Rejected, Expired",
         st)) ∧
    (validStatuses.contains s = true →
      (∀ a : Appointment, st.appointments.find? (fun x => x.id == id) = some a →
        updateAppointmentStatus "Admin" id s st =
          (.ok { a with status := s },
           { st with appointments := st.appointments.map fun x =>
              if x.id == id then { x with status := s } else x })) ∧
      (st.appointments.find? (fun x => x.id == id) = none →
        updateAppointmentStatus "Admin" id s st =
          (.error 404 "Appointment not found", st))) := by
  refine ⟨fun h => ?_, fun h => ⟨fun a ha => ?_, fun h404 => ?_⟩⟩
  · have h' : s ∉ validStatuses := by simpa using h
    simp [updateAppointmentStatus, h']
  · have h' : s ∈ validStatuses := by simpa using h
    simp [updateAppointmentStatus, h', ha]
  · have h' : s ∈ validStatuses := by simpa using h
    simp [updateAppointmentStatus, h', h404]

/-- Witness for C7: a store with one Pending appointment a1 — an
out-of-list value is rejected, Cancelled is applied to a1 unconditionally,
and an unknown id answers 404. -/
theorem admin_status_update_contract_witness :
    updateAppointmentStatus "Admin" "a1" "Weird"
        ⟨[], [], [⟨"a1", "u", "d", 5, "t", "", "", "Pending"⟩]⟩ =
      (.error 400
        "Invalid status. Valid statuses are: Pending, Confirmed, Completed, Cancelled, Rejected, Expired",
       ⟨[], [], [⟨"a1", "u", "d", 5, "t", "", "", "Pending"⟩]⟩) ∧
    updateAppointmentStatus "Admin" "a1" "Cancelled"
        ⟨[], [], [⟨"a1", "u", "d", 5, "t", "", "", "Pending"⟩]⟩ =
      (.ok ⟨"a1", "u", "d", 5, "t", "", "", "Cancelled"⟩,
       ⟨[], [], [⟨"a1", "u", "d", 5, "t", "", "", "Cancelled"⟩]⟩) ∧
    updateAppointmentStatus "Admin" "zz" "Cancelled"
        ⟨[], [], [⟨"a1", "u", "d", 5, "t", "", "", "Pending"⟩]⟩ =
      (.error 404 "Appointment not found",
       ⟨[], [], [⟨"a1", "u", "d", 5, "t", "", "", "Pending"⟩]⟩) := by
  refine ⟨(admin_status_update_contract "a1" "Weird" _).1 (by decide), ?_, ?_⟩
  · have h := ((admin_status_update_contract "a1" "Cancelled"
      ⟨[], [], [⟨"a1", "u", "d", 5, "t", "", "", "Pending"⟩]⟩).2 (by decide)).1
      ⟨"a1", "u", "d", 5, "t", "", "", "Pending"⟩ (by decide)
    rw [h]; decide
  · exact ((admin_status_update_contract "zz" "Cancelled"
      ⟨[], [], [⟨"a1", "u", "d", 5, "t", "", "", "Pending"⟩]⟩).2 (by decide)).2 (by decide)

/-- Saving a new fee on the doctor document found by userId: the lookup by
the same userId then returns that document with the new fee. -/
theorem find?_updateFirstFees (l : List Doctor) (u : String) (f : Nat)
    (d : Doctor) (h : l.find? (fun x => x.userId == u) = some d) :
    (updateFirstFees l u f).find? (fun x => x.userId == u) =
      some { d with fees := f } := by
  induction l with
  | nil => simp at h
  | cons x xs ih =>
    cases hx : (x.userId == u) with
    | true =>
      simp only [List.find?, hx] at h
      obtain rfl : x = d := Option.some.inj h
      simp only [updateFirstFees, hx, if_true, List.find?]
    | false =>
      simp only [List.find?, hx] at h
      simp only [updateFirstFees, hx, Bool.false_eq_true, if_false, List.find?]
      exact ih h

/-- The fee update touches only the doctors collection. -/
theorem updateDoctorFees_appointments (u : String) (f : Nat) (st : State) :
    (updateDoctorFees u f st).appointments = st.appointments := by
  rw [updateDoctorFees]; split <;> rfl

/-- C9: dashboard earnings equal the count of the doctor's appointments with
status in {Completed, Done, Approved} times the doctor's current fee;
changing the fee and re-querying changes the reported earnings for the same,
unchanged set of completed appointments. -/
theorem earnings_recompute (u : String) (f : Nat) (st : State) (d : Doctor)
    (hd : st.doctors.find? (fun x => x.userId == u) = some d) :
    doctorDashboardEarnings u st = some (completedCount d.id st * d.fees) ∧
    doctorDashboardEarnings u (updateDoctorFees u f st) =
      some (completedCount d.id st * f) ∧
    (0 < completedCount d.id st → f ≠ d.fees →
      doctorDashboardEarnings u (updateDoctorFees u f st) ≠
        doctorDashboardEarnings u st) := by
  have h1 : doctorDashboardEarnings u st =
      some (completedCount d.id st * d.fees) := by
    simp [doctorDashboardEarnings, hd]
  have hdocs : (updateDoctorFees u f st).doctors = updateFirstFees st.doctors u f := by
    rw [updateDoctorFees]; simp [hd]
  have h2 : doctorDashboardEarnings u (updateDoctorFees u f st) =
      some (completedCount d.id st * f) := by
    rw [doctorDashboardEarnings, hdocs, find?_updateFirstFees st.doctors u f d hd]
    have hc : completedCount d.id (updateDoctorFees u f st) = completedCount d.id st := by
      rw [completedCount, completedCount, updateDoctorFees_appointments]
    simp [hc]
  refine ⟨h1, h2, fun hpos hne => ?_⟩
  rw [h1, h2]
  intro heq
  exact hne (Nat.eq_of_mul_eq_mul_left hpos (Option.some.inj heq))

/-- Witness for C9: one completed appointment at fee 500; raising the fee to
800 changes the reported earnings from 500 to 800. -/
theorem earnings_recompute_witness :
    doctorDashboardEarnings "u1"
        ⟨[], [⟨"d1", "u1", 500⟩], [⟨"a1", "p1", "d1", 5, "t", "", "", "Completed"⟩]⟩ =
      some (completedCount "d1"
        ⟨[], [⟨"d1", "u1", 500⟩], [⟨"a1", "p1", "d1", 5, "t", "", "", "Completed"⟩]⟩ * 500) ∧
    doctorDashboardEarnings "u1" (updateDoctorFees "u1" 800
        ⟨[], [⟨"d1", "u1", 500⟩], [⟨"a1", "p1", "d1", 5, "t", "", "", "Completed"⟩]⟩) =
      some (completedCount "d1"
        ⟨[], [⟨"d1", "u1", 500⟩], [⟨"a1", "p1", "d1", 5, "t", "", "", "Completed"⟩]⟩ * 800) ∧
    doctorDashboardEarnings "u1" (updateDoctorFees "u1" 800
        ⟨[], [⟨"d1", "u1", 500⟩], [⟨"a1", "p1", "d1", 5, "t", "", "", "Completed"⟩]⟩) ≠
      doctorDashboardEarnings "u1"
        ⟨[], [⟨"d1", "u1", 500⟩], [⟨"a1", "p1", "d1", 5, "t", "", "", "Completed"⟩]⟩ := by
  have h := earnings_recompute "u1" 800
    ⟨[], [⟨"d1", "u1", 500⟩], [⟨"a1", "p1", "d1", 5, "t", "", "", "Completed"⟩]⟩
    ⟨"d1", "u1", 500⟩ (by decide)
  exact ⟨h.1, h.2.1, h.2.2 (by decide) (by decide)⟩

/-- C10: deleting an existing user deletes every appointment whose user_id
references that user and removes the user document itself; appointments of
other users are kept (in order) and the doctors collection is untouched. -/
theorem delete_user_cascades (id : String) (st : State) (u0 : User)
    (hu : st.users.find? (fun u => u.id == id) = some u0) :
    deleteUser "Admin" id st =
      (.ok,
       { st with
          users := removeFirstUser st.users id,
          appointments := st.appointments.filter (fun a => !(a.user_id == id)) }) ∧
    (∀ a ∈ (deleteUser "Admin" id st).2.appointments, a.user_id ≠ id) ∧
    (∀ a ∈ st.appointments, a.user_id ≠ id →
      a ∈ (deleteUser "Admin" id st).2.appointments) ∧
    (deleteUser "Admin" id st).2.doctors = st.doctors := by
  have heq : deleteUser "Admin" id st =
      (.ok,
       { st with
          users := removeFirstUser st.users id,
          appointments := st.appointments.filter (fun a => !(a.user_id == id)) }) := by
    simp [deleteUser, hu]
  refine ⟨heq, fun a ha => ?_, fun a ha hne => ?_, by rw [heq]⟩
  · rw [heq] at ha
    simp only [List.mem_filter, Bool.not_eq_eq_eq_not, Bool.not_true,
      beq_eq_false_iff_ne] at ha
    exact ha.2
  · rw [heq]
    simp only [List.mem_filter]
    exact ⟨ha, by simp [hne]⟩

/-- Witness for C10: two users with one appointment each; deleting u1 removes
u1 and u1's appointment and keeps u2's appointment and the doctor. -/
theorem delete_user_cascades_witness :
    deleteUser "Admin" "u1"
        ⟨[⟨"u1", "Patient"⟩, ⟨"u2", "Patient"⟩], [⟨"d1", "du", 500⟩],
         [⟨"a1", "u1", "d1", 5, "t", "", "", "Pending"⟩,
          ⟨"a2", "u2", "d1", 6, "t", "", "", "Pending"⟩]⟩ =
      (.ok,
       ⟨[⟨"u2", "Patient"⟩], [⟨"d1", "du", 500⟩],
        [⟨"a2", "u2", "d1", 6, "t", "", "", "Pending"⟩]⟩) ∧
    (⟨"a2", "u2", "d1", 6, "t", "", "", "Pending"⟩ : Appointment) ∈
      (deleteUser "Admin" "u1"
        ⟨[⟨"u1", "Patient"⟩, ⟨"u2", "Patient"⟩], [⟨"d1", "du", 500⟩],
         [⟨"a1", "u1", "d1", 5, "t", "", "", "Pending"⟩,
          ⟨"a2", "u2", "d1", 6, "t", "", "", "Pending"⟩]⟩).2.appointments := by
  have h := delete_user_cascades "u1"
    ⟨[⟨"u1", "Patient"⟩, ⟨"u2", "Patient"⟩], [⟨"d1", "du", 500⟩],
     [⟨"a1", "u1", "d1", 5, "t", "", "", "Pending"⟩,
      ⟨"a2", "u2", "d1", 6, "t", "", "", "Pending"⟩]⟩
    ⟨"u1", "Patient"⟩ (by decide)
  refine ⟨?_, h.2.2.1 ⟨"a2", "u2", "d1", 6, "t", "", "", "Pending"⟩ (by decide) (by decide)⟩
  rw [h.1]; decide

end DoctorApp
